import Mathlib

/-!
Verification development for the freeflow dictation tool.

This file shallowly embeds the streaming transcription coordinator
(`src/python/transcriber.py`), the orchestrator callbacks around it
(`src/python/api.py`, `src/main.py`) and the hotkey state machine
(`src/hotkey_manager.py`), and proves the spec-level properties about them.

Modelling conventions:
- Audio samples are float32 in the source, but the coordinator only
  concatenates sample arrays and measures their length; sample values are
  never inspected.  The carrier is therefore opaque and modelled as `Int`.
- The ASR model backend (`self.model.transcribe([path])`) is an opaque,
  blocking call.  The WAV temp-file round trip (`_save_wav` followed by the
  model reading the file back) is absorbed into the opaque backend function:
  a backend is `List Sample → List String`, i.e. the audio handed to
  `_save_wav` mapped to the list of transcription results.  The source's
  per-result format dispatch (`result.text` / `str` / `str(result)`) is
  representational; each result is modelled directly as the extracted string.
- Python methods that mutate `self` are modelled as state-passing functions;
  a method additionally returns the list of backend invocations it performed
  (each entry is the audio passed to the backend) so that claims about "no
  backend call" / "exactly one backend call over the full buffer" are
  expressible.
- Python's `""` return for "nothing to report" is kept as the empty string.
- Wall-clock fields (`recording_start_time`, durations) and temp-file
  cleanup are not modelled: no claim depends on them.
-/

namespace FreeFlow

/-- Audio sample carrier (float32 in the source; opaque to the coordinator). -/
abbrev Sample := Int

/-- Python `str.lower()` (executable model; Lean's `String.toLower` is not
kernel-reducible). -/
def pyLower (s : String) : String := ⟨s.data.map Char.toLower⟩

/-- Python `str.strip()`: drop leading and trailing whitespace (executable
model; Lean's `String.trim` is not kernel-reducible). -/
def pyStrip (s : String) : String :=
  ⟨((s.data.dropWhile Char.isWhitespace).reverse.dropWhile Char.isWhitespace).reverse⟩

/-- A backend model invocation: audio samples in, transcription results out
(`self.model.transcribe([path])` with the WAV round trip absorbed). -/
abbrev Backend := List Sample → List String

/-- `Transcriber.MIN_SAMPLES_FOR_TRANSCRIPTION = 32000` (2 s at 16 kHz). -/
def MIN_SAMPLES_FOR_TRANSCRIPTION : Nat := 32000

/-- `Transcriber.TRANSCRIBE_INTERVAL_SAMPLES = 16000` (1 s at 16 kHz). -/
def TRANSCRIBE_INTERVAL_SAMPLES : Nat := 16000

/-- `min_flush_samples = 8000` (0.5 s), local constant in `flush_streaming`. -/
def min_flush_samples : Nat := 8000

/-- Mutable state of `Transcriber` (src/python/transcriber.py):
`model` (abstracted to whether it is loaded), `_cache`, `_streaming_buffer`,
`_last_transcribed_length`.  (`_loading` / `_load_thread` only concern the
background loader and are not touched by the operations modelled here.) -/
structure TranscriberState where
  modelLoaded : Bool
  cache : Option Unit
  streamingBuffer : List Sample
  lastTranscribedLength : Nat
deriving Repr, DecidableEq

/-- `Transcriber.__init__`: no model, empty cache and buffer, marker 0. -/
def Transcriber.initState : TranscriberState :=
  { modelLoaded := false, cache := none, streamingBuffer := [], lastTranscribedLength := 0 }

/-- A transcriber whose model has finished loading, at the start of a fresh
streaming session (the state right after `reset_streaming`). -/
def readySession : TranscriberState :=
  { modelLoaded := true, cache := none, streamingBuffer := [], lastTranscribedLength := 0 }

/-- Result extraction shared by `transcribe_chunk` / `flush_streaming` /
`transcribe`: `transcriptions[0]` if non-empty, else `""`. -/
def extractResult : List String → String
  | [] => ""
  | r :: _ => r

/-- `Transcriber.reset_streaming`. -/
def reset_streaming (s : TranscriberState) : TranscriberState :=
  { s with cache := none, streamingBuffer := [], lastTranscribedLength := 0 }

/-- Outcome of one coordinator operation: the returned text, the state of the
transcriber afterwards, and the backend invocations performed (the audio
passed to each). -/
structure ChunkResult where
  text : String
  state : TranscriberState
  backendCalls : List (List Sample)
deriving Repr, DecidableEq

/-- `Transcriber.transcribe_chunk` (src/python/transcriber.py:140-199).
Appends the chunk, then: below `MIN_SAMPLES_FOR_TRANSCRIPTION` returns `""`;
below `TRANSCRIBE_INTERVAL_SAMPLES` of new audio returns `""` (debounce);
otherwise transcribes the entire accumulated buffer and updates
`_last_transcribed_length`.  (`new_samples` is a Python int, hence `Int`.) -/
def transcribe_chunk (backend : Backend) (s : TranscriberState)
    (audio_chunk : List Sample) : ChunkResult :=
  if s.modelLoaded = false then
    { text := "", state := s, backendCalls := [] }
  else
    let buf := s.streamingBuffer ++ audio_chunk
    let current_length := buf.length
    if current_length < MIN_SAMPLES_FOR_TRANSCRIPTION then
      { text := "", state := { s with streamingBuffer := buf }, backendCalls := [] }
    else
      let new_samples : Int := (current_length : Int) - (s.lastTranscribedLength : Int)
      if new_samples < (TRANSCRIBE_INTERVAL_SAMPLES : Int) then
        { text := "", state := { s with streamingBuffer := buf }, backendCalls := [] }
      else
        let transcriptions := backend buf
        { text := extractResult transcriptions
          state := { s with streamingBuffer := buf, lastTranscribedLength := current_length }
          backendCalls := [buf] }

/-- `Transcriber.flush_streaming` (src/python/transcriber.py:94-138).
Not ready or buffer below `min_flush_samples`: returns `""` with no backend
call.  Otherwise transcribes the full accumulated buffer; the streaming
state is not modified. -/
def flush_streaming (backend : Backend) (s : TranscriberState) : ChunkResult :=
  if s.modelLoaded = false then
    { text := "", state := s, backendCalls := [] }
  else if s.streamingBuffer.length < min_flush_samples then
    { text := "", state := s, backendCalls := [] }
  else
    let transcriptions := backend s.streamingBuffer
    { text := extractResult transcriptions, state := s, backendCalls := [s.streamingBuffer] }

/-- Body of `Transcriber.transcribe` after the readiness check
(src/python/transcriber.py:201-251): `reset_streaming`, then one backend
invocation over the separately captured full recording. -/
def transcribe_core (backend : Backend) (s : TranscriberState)
    (audio_data : List Sample) : ChunkResult :=
  let s1 := reset_streaming s
  let transcriptions := backend audio_data
  { text := extractResult transcriptions, state := s1, backendCalls := [audio_data] }

/-- `Transcriber.transcribe`: raises `RuntimeError` when the model is not
loaded, otherwise runs `transcribe_core`. -/
def transcribe (backend : Backend) (s : TranscriberState)
    (audio_data : List Sample) : Except String ChunkResult :=
  if s.modelLoaded = false then
    .error "Model not loaded. Call load_model_async() first."
  else
    .ok (transcribe_core backend s audio_data)

/-- Fold `transcribe_chunk` over a list of chunks, collecting each call's
outcome (used to state that two coordinator states behave identically). -/
def runChunks (backend : Backend) (s : TranscriberState) :
    List (List Sample) → List ChunkResult
  | [] => []
  | c :: cs =>
    let r := transcribe_chunk backend s c
    r :: runChunks backend r.state cs

/-- The streaming-session invariant from the spec:
`_last_transcribed_length <= len(_streaming_buffer)`. -/
def WF (s : TranscriberState) : Prop :=
  s.lastTranscribedLength ≤ s.streamingBuffer.length

/-!
Orchestrator layer (src/python/api.py).  Module-level mutable state:
`transcriber`, `is_recording`, `current_partial_text`.  Observer broadcasts
(`broadcast_status`, `broadcast_partial_transcript`) and the
finalize-pipeline side effects (history, clipboard paste) are modelled as
event lists in the returned effects record.  `apply_replacements` (from
`replacements.py`, an external collaborator per the spec) is an opaque
`String → String` parameter.  Python's `s.strip()` is `pyStrip`;
truthiness of a string is non-emptiness.
-/

/-- Module-level orchestrator state of src/python/api.py. -/
structure ApiState where
  transcriber : TranscriberState
  isRecording : Bool
  currentPartialText : String
deriving Repr, DecidableEq

/-- Effects of one `on_audio_chunk` call. -/
structure ChunkOutcome where
  state : ApiState
  partialBroadcasts : List String
  backendCalls : List (List Sample)
deriving Repr, DecidableEq

/-- `on_audio_chunk` (src/python/api.py:114-131): ignore the chunk when the
model is not ready or not recording, otherwise run `transcribe_chunk` and
broadcast the text only when it is non-empty, non-blank, and differs from
`current_partial_text` (storing the stripped text). -/
def on_audio_chunk (backend : Backend) (st : ApiState) (chunk : List Sample) :
    ChunkOutcome :=
  if st.transcriber.modelLoaded = false then
    { state := st, partialBroadcasts := [], backendCalls := [] }
  else if st.isRecording = false then
    { state := st, partialBroadcasts := [], backendCalls := [] }
  else
    let r := transcribe_chunk backend st.transcriber chunk
    if r.text ≠ "" ∧ (pyStrip r.text) ≠ "" ∧ r.text ≠ st.currentPartialText then
      { state := { st with transcriber := r.state, currentPartialText := (pyStrip r.text) }
        partialBroadcasts := [(pyStrip r.text)]
        backendCalls := r.backendCalls }
    else
      { state := { st with transcriber := r.state }
        partialBroadcasts := []
        backendCalls := r.backendCalls }

/-- Effects of one deactivate-path run (`stop_recording` endpoint or
`on_hotkey_release`): statuses broadcast, partial transcripts broadcast,
backend calls made by `flush_streaming`, backend calls made by the finalize
`transcribe`, history entries `(original_text, final_text)` added, and texts
pasted/output. -/
structure StopEffects where
  statusBroadcasts : List String
  partialBroadcasts : List String
  flushCalls : List (List Sample)
  finalizeCalls : List (List Sample)
  historyEntries : List (String × String)
  pasted : List String
deriving Repr, DecidableEq

/-- The Pydantic `TranscriptionResult` returned by the stop endpoint. -/
structure TranscriptionResult where
  text : String
  original_text : String
  success : Bool
deriving Repr, DecidableEq

/-- The flush block shared by `stop_recording` and `on_hotkey_release`
(src/python/api.py:341-346 and 664-669): if the model is ready, call
`flush_streaming`; if the text is truthy and non-blank, store and broadcast
the stripped text.  Returns (partial broadcasts, new `current_partial_text`,
flush backend calls). -/
def flushBlock (backend : Backend) (st : ApiState) :
    List String × String × List (List Sample) :=
  if st.transcriber.modelLoaded = true then
    let fr := flush_streaming backend st.transcriber
    if fr.text ≠ "" ∧ (pyStrip fr.text) ≠ "" then
      ([(pyStrip fr.text)], (pyStrip fr.text), fr.backendCalls)
    else
      ([], st.currentPartialText, fr.backendCalls)
  else
    ([], st.currentPartialText, [])

/-- `stop_recording` endpoint (src/python/api.py:324-383).  `stopResult` is
what `audio.stop_recording()` returns (`none` when nothing was captured).
Raised `HTTPException`s are the `Except.error` cases; effects on an
exception path before any side effect are dropped with the exception, as in
the source.  The "transcribing" status is broadcast before the empty-audio
check, exactly as in the source. -/
def stop_recording (backend : Backend) (apply_replacements : String → String)
    (st : ApiState) (stopResult : Option (List Sample)) :
    Except String (ApiState × StopEffects × TranscriptionResult) :=
  if st.isRecording = false then
    .error "Not currently recording"
  else
    let fb := flushBlock backend st
    let st1 : ApiState :=
      { st with isRecording := false, currentPartialText := fb.2.1 }
    -- broadcast_status("transcribing") happens here, before the empty check
    match stopResult with
    | none =>
      .ok (st1,
           { statusBroadcasts := ["transcribing", "ready"]
             partialBroadcasts := fb.1, flushCalls := fb.2.2
             finalizeCalls := [], historyEntries := [], pasted := [] },
           { text := "", original_text := "", success := false })
    | some audio_data =>
      if audio_data.length = 0 then
        .ok (st1,
             { statusBroadcasts := ["transcribing", "ready"]
               partialBroadcasts := fb.1, flushCalls := fb.2.2
               finalizeCalls := [], historyEntries := [], pasted := [] },
             { text := "", original_text := "", success := false })
      else
        if st1.transcriber.modelLoaded = true then
          let tr := transcribe_core backend st1.transcriber audio_data
          let final_text := apply_replacements tr.text
          .ok ({ st1 with transcriber := tr.state },
               { statusBroadcasts := ["transcribing", "ready"]
                 partialBroadcasts := fb.1, flushCalls := fb.2.2
                 finalizeCalls := tr.backendCalls
                 historyEntries := [(tr.text, final_text)], pasted := [] },
               { text := final_text, original_text := tr.text, success := true })
        else
          .error "Transcriber not ready"

/-- `on_hotkey_release` (src/python/api.py:646-684) together with the
`transcribe_and_paste` worker it spawns (src/python/api.py:598-643), run to
completion.  Mirrors the source: no-op unless recording; flush; stop the
audio source; on empty capture broadcast only "ready"; otherwise the worker
checks readiness, broadcasts "transcribing", finalizes, and skips the
replacement/history/paste pipeline when the transcript is blank. -/
def on_hotkey_release (backend : Backend) (apply_replacements : String → String)
    (st : ApiState) (stopResult : Option (List Sample)) :
    ApiState × StopEffects :=
  if st.isRecording = false then
    (st, { statusBroadcasts := [], partialBroadcasts := [], flushCalls := []
           finalizeCalls := [], historyEntries := [], pasted := [] })
  else
    let fb := flushBlock backend st
    let st1 : ApiState :=
      { st with isRecording := false, currentPartialText := fb.2.1 }
    match stopResult with
    | none =>
      (st1, { statusBroadcasts := ["ready"], partialBroadcasts := fb.1
              flushCalls := fb.2.2, finalizeCalls := []
              historyEntries := [], pasted := [] })
    | some audio_data =>
      if audio_data.length = 0 then
        (st1, { statusBroadcasts := ["ready"], partialBroadcasts := fb.1
                flushCalls := fb.2.2, finalizeCalls := []
                historyEntries := [], pasted := [] })
      else
        -- transcribe_and_paste, run in a background thread in the source
        if st1.transcriber.modelLoaded = false then
          (st1, { statusBroadcasts := ["error"], partialBroadcasts := fb.1
                  flushCalls := fb.2.2, finalizeCalls := []
                  historyEntries := [], pasted := [] })
        else
          let tr := transcribe_core backend st1.transcriber audio_data
          let st2 := { st1 with transcriber := tr.state }
          if tr.text = "" ∨ (pyStrip tr.text) = "" then
            (st2, { statusBroadcasts := ["transcribing", "ready"]
                    partialBroadcasts := fb.1, flushCalls := fb.2.2
                    finalizeCalls := tr.backendCalls
                    historyEntries := [], pasted := [] })
          else
            let final_text := apply_replacements tr.text
            (st2, { statusBroadcasts := ["transcribing", "ready"]
                    partialBroadcasts := fb.1, flushCalls := fb.2.2
                    finalizeCalls := tr.backendCalls
                    historyEntries := [(tr.text, final_text)]
                    pasted := [final_text] })

/-!
Main-app deactivate path (src/main.py:105-164).  `FreeFlow._on_hotkey_release`
sets the GUI status to Transcribing, stops the audio source, short-circuits
to Ready on empty capture, and otherwise runs `_transcribe_and_type` (using
the batch transcriber of src/transcriber.py, whose result extraction is the
same `extractResult`; `KeyboardOutput.type_text` is the output collaborator).
-/

/-- GUI `Status` values (src/gui.py) used by the main-app path. -/
inductive GuiStatus
  | loading
  | ready
  | recording
  | transcribing
  | error
deriving Repr, DecidableEq

/-- The fields of the `FreeFlow` application state that the release path
reads: `_settings_open`, transcriber readiness, audio recording flag. -/
structure MainState where
  settingsOpen : Bool
  transcriberReady : Bool
  audioRecording : Bool
deriving Repr, DecidableEq

/-- Effects of one `FreeFlow._on_hotkey_release` run. -/
structure MainEffects where
  guiStatuses : List GuiStatus
  finalizeCalls : List (List Sample)
  typed : List String
deriving Repr, DecidableEq

/-- `FreeFlow._on_hotkey_release` (src/main.py:105-134) together with the
`_transcribe_and_type` worker (src/main.py:136-164), run to completion. -/
def main_on_hotkey_release (backend : Backend) (st : MainState)
    (stopResult : Option (List Sample)) : MainEffects :=
  if st.settingsOpen = true then
    { guiStatuses := [], finalizeCalls := [], typed := [] }
  else if st.transcriberReady = false then
    { guiStatuses := [], finalizeCalls := [], typed := [] }
  else if st.audioRecording = false then
    { guiStatuses := [], finalizeCalls := [], typed := [] }
  else
    -- set_status(Status.TRANSCRIBING), then stop_recording()
    match stopResult with
    | none =>
      { guiStatuses := [.transcribing, .ready], finalizeCalls := [], typed := [] }
    | some audio_data =>
      if audio_data.length = 0 then
        { guiStatuses := [.transcribing, .ready], finalizeCalls := [], typed := [] }
      else
        -- _transcribe_and_type in a background thread
        let text := extractResult (backend audio_data)
        if text = "" then
          { guiStatuses := [.transcribing, .ready], finalizeCalls := [audio_data], typed := [] }
        else
          { guiStatuses := [.transcribing, .ready], finalizeCalls := [audio_data], typed := [text] }

/-!
Hotkey state machine (src/hotkey_manager.py).  pynput `Key` / `KeyCode`
values are modelled by `PKey`: one constructor per special key appearing in
`KEY_MAP` (plus `alt_gr`, which `normalize_key` mentions), and `char c` for
`KeyCode.from_char`.  Callback invocations (`on_press` / `on_release`) are
modelled as emitted `HEvent`s; `print` calls are not modelled.
-/

/-- Keyboard keys: the pynput keys named in `KEY_MAP` / `normalize_key`,
plus character keys.  (`Key.end` is spelled `endKey`; `end` is reserved.) -/
inductive PKey
  | ctrl_l | ctrl_r | shift_l | shift_r | alt_l | alt_r | alt_gr | cmd
  | space | tab | enter | esc | backspace | delete | insert
  | home | endKey | page_up | page_down | up | down | left | right
  | f1 | f2 | f3 | f4 | f5 | f6 | f7 | f8 | f9 | f10 | f11 | f12
  | char (c : Char)
deriving Repr, DecidableEq

/-- `KEY_MAP` (src/hotkey_manager.py:11-51): string names to keys. -/
def KEY_MAP : List (String × PKey) :=
  [("ctrl", .ctrl_l), ("ctrl_l", .ctrl_l), ("ctrl_r", .ctrl_r),
   ("shift", .shift_l), ("shift_l", .shift_l), ("shift_r", .shift_r),
   ("alt", .alt_l), ("alt_l", .alt_l), ("alt_r", .alt_r),
   ("cmd", .cmd), ("win", .cmd),
   ("space", .space), ("tab", .tab), ("enter", .enter),
   ("esc", .esc), ("escape", .esc),
   ("backspace", .backspace), ("delete", .delete), ("insert", .insert),
   ("home", .home), ("end", .endKey),
   ("page_up", .page_up), ("page_down", .page_down),
   ("up", .up), ("down", .down), ("left", .left), ("right", .right),
   ("f1", .f1), ("f2", .f2), ("f3", .f3), ("f4", .f4), ("f5", .f5),
   ("f6", .f6), ("f7", .f7), ("f8", .f8), ("f9", .f9), ("f10", .f10),
   ("f11", .f11), ("f12", .f12)]

/-- `parse_key` (src/hotkey_manager.py:57-76): lowercase and strip the
string, look it up in `KEY_MAP`, else accept single characters. -/
def parse_key (key_str : String) : Option PKey :=
  let key_lower := pyStrip (pyLower key_str)
  match KEY_MAP.lookup key_lower with
  | some k => some k
  | none =>
    match key_lower.toList with
    | [c] => some (.char c)
    | _ => none

/-- `normalize_key` (src/hotkey_manager.py:104-121): fold left/right
modifier variants together. -/
def normalize_key (key : PKey) : PKey :=
  match key with
  | .ctrl_l => .ctrl_l
  | .ctrl_r => .ctrl_l
  | .shift_l => .shift_l
  | .shift_r => .shift_l
  | .alt_l => .alt_l
  | .alt_r => .alt_l
  | .alt_gr => .alt_l
  | k => k

/-- `HotkeyManager.MODE_PUSH_TO_TALK`. -/
def MODE_PUSH_TO_TALK : String := "push_to_talk"

/-- `HotkeyManager.MODE_TOGGLE`. -/
def MODE_TOGGLE : String := "toggle"

/-- Mutable state of `HotkeyManager`: `_mode`, `_hotkey_keys`,
`_pressed_keys`, `_hotkey_active`, `_toggle_recording`, `_enabled`.
(The pynput listener object and the lock are not modelled.) -/
structure HotkeyState where
  mode : String
  hotkeyKeys : Finset PKey
  pressedKeys : Finset PKey
  hotkeyActive : Bool
  toggleRecording : Bool
  enabled : Bool
deriving DecidableEq

/-- Callback firings of the hotkey machine (`on_press` = activate,
`on_release` = deactivate, in the orchestrator's reading). -/
inductive HEvent
  | activate
  | deactivate
deriving Repr, DecidableEq

/-- `HotkeyManager.set_mode` (src/hotkey_manager.py:159-170): store the
mode, reset `_toggle_recording` and `_hotkey_active`; no callbacks fire
(the returned event list is always empty). -/
def set_mode (s : HotkeyState) (mode : String) : HotkeyState × List HEvent :=
  ({ s with mode := mode, toggleRecording := false, hotkeyActive := false }, [])

/-- Result of `HotkeyManager.set_hotkey`: the returned bool, the state
afterwards, and the callbacks fired (always none). -/
structure SetHotkeyResult where
  success : Bool
  state : HotkeyState
  events : List HEvent
deriving DecidableEq

/-- `HotkeyManager.set_hotkey` (src/hotkey_manager.py:172-199): parse and
normalize each name; with no valid key, return `False` and leave the state
unchanged; otherwise replace `_hotkey_keys` and reset `_hotkey_active`
(only).  No callbacks fire. -/
def set_hotkey (s : HotkeyState) (hotkey : List String) : SetHotkeyResult :=
  let new_keys : Finset PKey :=
    ((hotkey.filterMap parse_key).map normalize_key).toFinset
  if new_keys = ∅ then
    { success := false, state := s, events := [] }
  else
    { success := true
      state := { s with hotkeyKeys := new_keys, hotkeyActive := false }
      events := [] }

/-- `HotkeyManager._on_key_press` (src/hotkey_manager.py:242-288). -/
def on_key_press (s : HotkeyState) (key : PKey) : HotkeyState × List HEvent :=
  if s.enabled = false then
    (s, [])
  else
    let normalized := normalize_key key
    let pressed := insert normalized s.pressedKeys
    if s.hotkeyActive = false ∧ s.hotkeyKeys.Nonempty ∧ s.hotkeyKeys ⊆ pressed then
      if s.mode = MODE_TOGGLE then
        if s.toggleRecording = false then
          ({ s with pressedKeys := pressed, hotkeyActive := true,
                    toggleRecording := true }, [.activate])
        else
          ({ s with pressedKeys := pressed, hotkeyActive := true,
                    toggleRecording := false }, [.deactivate])
      else
        ({ s with pressedKeys := pressed, hotkeyActive := true }, [.activate])
    else
      ({ s with pressedKeys := pressed }, [])

/-- `HotkeyManager._on_key_release` (src/hotkey_manager.py:290-315). -/
def on_key_release (s : HotkeyState) (key : PKey) : HotkeyState × List HEvent :=
  if s.enabled = false then
    (s, [])
  else
    let normalized := normalize_key key
    let pressed := s.pressedKeys.erase normalized
    if s.hotkeyActive = true ∧ normalized ∈ s.hotkeyKeys then
      if s.mode = MODE_PUSH_TO_TALK then
        ({ s with pressedKeys := pressed, hotkeyActive := false }, [.deactivate])
      else
        ({ s with pressedKeys := pressed, hotkeyActive := false }, [])
    else
      ({ s with pressedKeys := pressed }, [])

/-- A raw key edge delivered by the OS listener. -/
inductive KeyEvent
  | press (k : PKey)
  | release (k : PKey)
deriving Repr, DecidableEq

/-- Dispatch one key edge to the machine. -/
def handle_event (s : HotkeyState) : KeyEvent → HotkeyState × List HEvent
  | .press k => on_key_press s k
  | .release k => on_key_release s k

/-- Run a sequence of key edges, concatenating the fired callbacks. -/
def run_events (s : HotkeyState) : List KeyEvent → HotkeyState × List HEvent
  | [] => (s, [])
  | e :: es =>
    let r1 := handle_event s e
    let r2 := run_events r1.1 es
    (r2.1, r1.2 ++ r2.2)

/-- Press each key of a list in order. -/
def pressAll (ks : List PKey) : List KeyEvent := ks.map .press

/-- Release each key of a list in order. -/
def releaseAll (ks : List PKey) : List KeyEvent := ks.map .release

/-- Machine state with combination `ck` (normalized, as `set_hotkey` builds
it), given mode, empty pressed set, both flags clear, enabled. -/
def freshMachine (mode : String) (ck : List PKey) : HotkeyState :=
  { mode := mode
    hotkeyKeys := (ck.map normalize_key).toFinset
    pressedKeys := ∅
    hotkeyActive := false
    toggleRecording := false
    enabled := true }

/-!
Concrete inputs, and proof-layer descriptions of the machine's press and
release phases used to state the run lemmas.
-/

/-- One second of silence at 16 kHz: 16000 zero samples. -/
def oneSecond : List Sample := List.replicate 16000 0

/-- Two seconds of silence at 16 kHz: 32000 zero samples. -/
def twoSeconds : List Sample := List.replicate 32000 0

/-- A backend that always transcribes to the same string. -/
def helloBackend : Backend := fun _ => ["hello"]

/-- Orchestrator state while a recording session is live on a ready model
(right after `start_recording` / `on_hotkey_press`). -/
def recState : ApiState :=
  { transcriber := readySession, isRecording := true, currentPartialText := "" }

/-- A toggle-mode machine currently recording (second press pending). -/
def toggledMachine : HotkeyState :=
  { mode := MODE_TOGGLE
    hotkeyKeys := {PKey.ctrl_l}
    pressedKeys := ∅
    hotkeyActive := true
    toggleRecording := true
    enabled := true }

/-- The concrete push-to-talk machine of the spec scenario:
combination {ctrl_l, shift_l, space}. -/
def pttMachine : HotkeyState :=
  freshMachine MODE_PUSH_TO_TALK [.ctrl_l, .shift_l, .space]

/-- Pressed set after pressing the keys of `ks` in order from `p`. -/
def pressedAfterPresses (p : Finset PKey) (ks : List PKey) : Finset PKey :=
  ks.foldl (fun acc k => insert (normalize_key k) acc) p

/-- Pressed set after releasing the keys of `ks` in order from `p`. -/
def pressedAfterReleases (p : Finset PKey) (ks : List PKey) : Finset PKey :=
  ks.foldl (fun acc k => acc.erase (normalize_key k)) p

/-- The callback fired at the press edge that completes the combination
(mirrors the dispatch branch of `_on_key_press`). -/
def dispatchedEvent (s : HotkeyState) : HEvent :=
  if s.mode = MODE_TOGGLE then
    (if s.toggleRecording = false then .activate else .deactivate)
  else .activate

/-- `_toggle_recording` after the completing press edge. -/
def toggleAfterDispatch (s : HotkeyState) : Bool :=
  if s.mode = MODE_TOGGLE then !s.toggleRecording else s.toggleRecording

/-!
Branch lemmas for the coordinator operations: one equation per control-flow
path of `transcribe_chunk`.
-/

theorem oneSecond_length : oneSecond.length = 16000 := by
  rw [oneSecond, List.length_replicate]

theorem twoSeconds_length : twoSeconds.length = 32000 := by
  rw [twoSeconds, List.length_replicate]

/-- `transcribe_chunk` with no model: nothing happens. -/
theorem transcribe_chunk_not_ready (backend : Backend) (s : TranscriberState)
    (c : List Sample) (h : s.modelLoaded = false) :
    transcribe_chunk backend s c = ⟨"", s, []⟩ := by
  simp only [transcribe_chunk]
  rw [if_pos h]

/-- `transcribe_chunk` below the startup threshold: append only. -/
theorem transcribe_chunk_below_min (backend : Backend) (s : TranscriberState)
    (c : List Sample) (h : s.modelLoaded = true)
    (hlen : (s.streamingBuffer ++ c).length < MIN_SAMPLES_FOR_TRANSCRIPTION) :
    transcribe_chunk backend s c =
      ⟨"", { s with streamingBuffer := s.streamingBuffer ++ c }, []⟩ := by
  simp only [transcribe_chunk]
  rw [if_neg (by simp [h]), if_pos hlen]

/-- `transcribe_chunk` inside the debounce interval: append only. -/
theorem transcribe_chunk_debounce (backend : Backend) (s : TranscriberState)
    (c : List Sample) (h : s.modelLoaded = true)
    (hlen : ¬ (s.streamingBuffer ++ c).length < MIN_SAMPLES_FOR_TRANSCRIPTION)
    (hint : ((s.streamingBuffer ++ c).length : Int) - (s.lastTranscribedLength : Int) <
      (TRANSCRIBE_INTERVAL_SAMPLES : Int)) :
    transcribe_chunk backend s c =
      ⟨"", { s with streamingBuffer := s.streamingBuffer ++ c }, []⟩ := by
  simp only [transcribe_chunk]
  rw [if_neg (by simp [h]), if_neg hlen, if_pos hint]

/-- `transcribe_chunk` past both thresholds: one backend invocation over the
entire accumulated buffer, marker updated to the new accumulated length. -/
theorem transcribe_chunk_fire (backend : Backend) (s : TranscriberState)
    (c : List Sample) (h : s.modelLoaded = true)
    (hlen : ¬ (s.streamingBuffer ++ c).length < MIN_SAMPLES_FOR_TRANSCRIPTION)
    (hint : ¬ ((s.streamingBuffer ++ c).length : Int) - (s.lastTranscribedLength : Int) <
      (TRANSCRIBE_INTERVAL_SAMPLES : Int)) :
    transcribe_chunk backend s c =
      ⟨extractResult (backend (s.streamingBuffer ++ c)),
       { s with streamingBuffer := s.streamingBuffer ++ c,
                lastTranscribedLength := (s.streamingBuffer ++ c).length },
       [s.streamingBuffer ++ c]⟩ := by
  simp only [transcribe_chunk]
  rw [if_neg (by simp [h]), if_neg hlen, if_neg hint]

/-- C1: with the model ready, every `transcribe_chunk` call appends its chunk
to the accumulated buffer; it returns nothing (`""`) with no backend call
while the accumulated length is below 32000 samples, and once the length has
reached 32000 it invokes the backend exactly when at least 16000 new samples
have accumulated since the last transcription, otherwise returning nothing.
Concretely, pushing three 16000-sample chunks from a fresh ready session:
the first call returns nothing with no backend call, the second call makes
the first backend invocation, the third call makes the second. -/
theorem transcribe_chunk_startup_and_debounce :
    (∀ (backend : Backend) (s : TranscriberState) (chunk : List Sample),
      s.modelLoaded = true →
      ((transcribe_chunk backend s chunk).state.streamingBuffer =
         s.streamingBuffer ++ chunk) ∧
      ((s.streamingBuffer ++ chunk).length < MIN_SAMPLES_FOR_TRANSCRIPTION →
        transcribe_chunk backend s chunk =
          ⟨"", { s with streamingBuffer := s.streamingBuffer ++ chunk }, []⟩) ∧
      (MIN_SAMPLES_FOR_TRANSCRIPTION ≤ (s.streamingBuffer ++ chunk).length →
        (((s.streamingBuffer ++ chunk).length : Int) - (s.lastTranscribedLength : Int) <
            (TRANSCRIBE_INTERVAL_SAMPLES : Int) →
          transcribe_chunk backend s chunk =
            ⟨"", { s with streamingBuffer := s.streamingBuffer ++ chunk }, []⟩) ∧
        ((TRANSCRIBE_INTERVAL_SAMPLES : Int) ≤
            ((s.streamingBuffer ++ chunk).length : Int) - (s.lastTranscribedLength : Int) →
          (transcribe_chunk backend s chunk).backendCalls =
            [s.streamingBuffer ++ chunk]))) ∧
    (∀ backend : Backend,
      (transcribe_chunk backend readySession oneSecond).text = "" ∧
      (transcribe_chunk backend readySession oneSecond).backendCalls = [] ∧
      (transcribe_chunk backend (transcribe_chunk backend readySession oneSecond).state
          oneSecond).backendCalls.length = 1 ∧
      (transcribe_chunk backend
          (transcribe_chunk backend (transcribe_chunk backend readySession oneSecond).state
              oneSecond).state oneSecond).backendCalls.length = 1) := by
  constructor
  · intro backend s chunk h
    refine ⟨?_, ?_, ?_⟩
    · by_cases hlen : (s.streamingBuffer ++ chunk).length < MIN_SAMPLES_FOR_TRANSCRIPTION
      · rw [transcribe_chunk_below_min backend s chunk h hlen]
      · by_cases hint : ((s.streamingBuffer ++ chunk).length : Int) -
            (s.lastTranscribedLength : Int) < (TRANSCRIBE_INTERVAL_SAMPLES : Int)
        · rw [transcribe_chunk_debounce backend s chunk h hlen hint]
        · rw [transcribe_chunk_fire backend s chunk h hlen hint]
    · intro hlen
      exact transcribe_chunk_below_min backend s chunk h hlen
    · intro hmin
      constructor
      · intro hint
        exact transcribe_chunk_debounce backend s chunk h (not_lt.mpr hmin) hint
      · intro hint
        rw [transcribe_chunk_fire backend s chunk h (not_lt.mpr hmin) (not_lt.mpr hint)]
  · intro backend
    have h1 : transcribe_chunk backend readySession oneSecond =
        ⟨"", ⟨true, none, oneSecond, 0⟩, []⟩ := by
      rw [transcribe_chunk_below_min backend readySession oneSecond rfl
        (by simp [oneSecond_length, readySession, MIN_SAMPLES_FOR_TRANSCRIPTION])]
      simp [readySession]
    rw [h1]
    have h2 : transcribe_chunk backend ⟨true, none, oneSecond, 0⟩ oneSecond =
        ⟨extractResult (backend (oneSecond ++ oneSecond)),
         ⟨true, none, oneSecond ++ oneSecond, (oneSecond ++ oneSecond).length⟩,
         [oneSecond ++ oneSecond]⟩ := by
      rw [transcribe_chunk_fire backend ⟨true, none, oneSecond, 0⟩ oneSecond rfl
        (by simp [oneSecond_length, MIN_SAMPLES_FOR_TRANSCRIPTION])
        (by simp [oneSecond_length, TRANSCRIBE_INTERVAL_SAMPLES])]
    rw [h2]
    have h3 : (transcribe_chunk backend
        ⟨true, none, oneSecond ++ oneSecond, (oneSecond ++ oneSecond).length⟩
        oneSecond).backendCalls.length = 1 := by
      rw [transcribe_chunk_fire backend
        ⟨true, none, oneSecond ++ oneSecond, (oneSecond ++ oneSecond).length⟩ oneSecond rfl
        (by simp [oneSecond_length, MIN_SAMPLES_FOR_TRANSCRIPTION])
        (by simp [oneSecond_length, TRANSCRIBE_INTERVAL_SAMPLES])]
      rfl
    rw [h3]
    simp

/-- Witness for C1: applies the theorem to a fresh ready session and a
one-second chunk, discharging the readiness hypothesis. -/
theorem transcribe_chunk_startup_and_debounce_witness :
    readySession.modelLoaded = true ∧
    (transcribe_chunk (fun _ => ["ok"]) readySession oneSecond).state.streamingBuffer =
      readySession.streamingBuffer ++ oneSecond :=
  ⟨rfl, (transcribe_chunk_startup_and_debounce.1 (fun _ => ["ok"])
    readySession oneSecond rfl).1⟩

/-- `flush_streaming` never changes the transcriber state. -/
theorem flush_streaming_state (backend : Backend) (s : TranscriberState) :
    (flush_streaming backend s).state = s := by
  simp only [flush_streaming]
  split_ifs <;> rfl

/-- C3: with the model ready, `flush_streaming` returns nothing and makes no
backend call when the accumulated buffer holds fewer than 8000 samples; with
at least 8000 samples it invokes the backend exactly once over the full
accumulated buffer — regardless of how few new samples arrived since the
last transcription (the state `s`, including its debounce marker, is
arbitrary) — and returns the backend text unconditionally (so also when it
equals the last emitted partial). -/
theorem flush_streaming_threshold_and_force :
    ∀ (backend : Backend) (s : TranscriberState), s.modelLoaded = true →
      (s.streamingBuffer.length < min_flush_samples →
        flush_streaming backend s = ⟨"", s, []⟩) ∧
      (min_flush_samples ≤ s.streamingBuffer.length →
        flush_streaming backend s =
          ⟨extractResult (backend s.streamingBuffer), s, [s.streamingBuffer]⟩) := by
  intro backend s h
  constructor
  · intro hlen
    simp only [flush_streaming]
    rw [if_neg (by simp [h]), if_pos hlen]
  · intro hlen
    simp only [flush_streaming]
    rw [if_neg (by simp [h]), if_neg (not_lt.mpr hlen)]

/-- Witness for C3: a ready session with an empty buffer is below the flush
threshold, so flushing returns nothing and performs no backend call. -/
theorem flush_streaming_threshold_and_force_witness :
    readySession.modelLoaded = true ∧
    readySession.streamingBuffer.length < min_flush_samples ∧
    flush_streaming (fun _ => ["ok"]) readySession = ⟨"", readySession, []⟩ :=
  ⟨rfl, by simp [readySession, min_flush_samples],
   (flush_streaming_threshold_and_force (fun _ => ["ok"]) readySession rfl).1
     (by simp [readySession, min_flush_samples])⟩

/-- C4: with the model ready, `transcribe` resets the streaming state
(buffer emptied, marker zeroed, cache cleared) and invokes the backend once
over the separately captured full recording; the resulting streaming state
equals the fresh ready session, so any subsequent `transcribe_chunk`
sequence without an explicit `reset_streaming` behaves exactly as a fresh
session. -/
theorem transcribe_resets_streaming_state :
    ∀ (backend : Backend) (s : TranscriberState) (audio : List Sample),
      s.modelLoaded = true →
      transcribe backend s audio =
        Except.ok ⟨extractResult (backend audio), reset_streaming s, [audio]⟩ ∧
      reset_streaming s =
        { s with cache := none, streamingBuffer := [], lastTranscribedLength := 0 } ∧
      (transcribe_core backend s audio).state = readySession ∧
      ∀ (backend2 : Backend) (chunks : List (List Sample)),
        runChunks backend2 (transcribe_core backend s audio).state chunks =
          runChunks backend2 readySession chunks := by
  intro backend s audio h
  have hstate : (transcribe_core backend s audio).state = readySession := by
    simp [transcribe_core, reset_streaming, readySession, h]
  refine ⟨?_, rfl, hstate, ?_⟩
  · simp only [transcribe]
    rw [if_neg (by simp [h])]
    rfl
  · intro backend2 chunks
    rw [hstate]

/-- Witness for C4: finalizing from a ready session resets it back to the
fresh ready session. -/
theorem transcribe_resets_streaming_state_witness :
    readySession.modelLoaded = true ∧
    (transcribe_core (fun _ => ["ok"]) readySession oneSecond).state = readySession :=
  ⟨rfl, (transcribe_resets_streaming_state (fun _ => ["ok"])
    readySession oneSecond rfl).2.2.1⟩

/-- C5: the invariant `_last_transcribed_length <= len(_streaming_buffer)`
holds initially and is preserved by `reset_streaming`, `transcribe_chunk`,
`flush_streaming` and `transcribe`. -/
theorem lastTranscribed_le_accumulated_invariant :
    WF Transcriber.initState ∧
    (∀ s : TranscriberState, WF (reset_streaming s)) ∧
    (∀ (backend : Backend) (s : TranscriberState) (chunk : List Sample),
      WF s → WF (transcribe_chunk backend s chunk).state) ∧
    (∀ (backend : Backend) (s : TranscriberState),
      WF s → WF (flush_streaming backend s).state) ∧
    (∀ (backend : Backend) (s : TranscriberState) (audio : List Sample)
      (r : ChunkResult),
      transcribe backend s audio = Except.ok r → WF r.state) := by
  refine ⟨?_, ?_, ?_, ?_, ?_⟩
  · simp [WF, Transcriber.initState]
  · intro s
    simp [WF, reset_streaming]
  · intro backend s chunk hwf
    by_cases h : s.modelLoaded = true
    · by_cases hlen : (s.streamingBuffer ++ chunk).length < MIN_SAMPLES_FOR_TRANSCRIPTION
      · rw [transcribe_chunk_below_min backend s chunk h hlen]
        exact le_trans hwf (by simp)
      · by_cases hint : ((s.streamingBuffer ++ chunk).length : Int) -
            (s.lastTranscribedLength : Int) < (TRANSCRIBE_INTERVAL_SAMPLES : Int)
        · rw [transcribe_chunk_debounce backend s chunk h hlen hint]
          exact le_trans hwf (by simp)
        · rw [transcribe_chunk_fire backend s chunk h hlen hint]
          exact le_refl _
    · rw [transcribe_chunk_not_ready backend s chunk (by simpa using h)]
      exact hwf
  · intro backend s hwf
    rw [flush_streaming_state]
    exact hwf
  · intro backend s audio r heq
    by_cases h : s.modelLoaded = true
    · simp only [transcribe] at heq
      rw [if_neg (by simp [h])] at heq
      cases heq
      exact Nat.zero_le _
    · simp only [transcribe] at heq
      rw [if_pos (by simpa using h)] at heq
      cases heq

/-- Witness for C5: preservation applied at a fresh ready session. -/
theorem lastTranscribed_le_accumulated_invariant_witness :
    WF readySession ∧
    WF (transcribe_chunk (fun _ => ["ok"]) readySession oneSecond).state :=
  ⟨Nat.le_refl 0,
   lastTranscribed_le_accumulated_invariant.2.2.1 (fun _ => ["ok"])
     readySession oneSecond (Nat.le_refl 0)⟩

/-- C10: `flush_streaming` leaves the streaming state unchanged — the buffer
is neither consumed nor truncated and the marker is not advanced — so a
repeated flush re-invokes the backend on the same audio with the same
outcome, and a `transcribe_chunk` immediately after a flush behaves exactly
as if the flush had not happened. -/
theorem flush_streaming_frame_effect :
    ∀ (backend backend2 : Backend) (s : TranscriberState) (chunk : List Sample),
      (flush_streaming backend s).state = s ∧
      flush_streaming backend (flush_streaming backend s).state =
        flush_streaming backend s ∧
      transcribe_chunk backend2 (flush_streaming backend s).state chunk =
        transcribe_chunk backend2 s chunk := by
  intro backend backend2 s chunk
  have h := flush_streaming_state backend s
  exact ⟨h, by rw [h], by rw [h]⟩

/-!
Claim C2 material: with a constant backend, two consecutive
backend-invoking `transcribe_chunk` calls from a fresh ready session.
-/

theorem hello_first_call :
    transcribe_chunk helloBackend readySession twoSeconds =
      ⟨"hello", ⟨true, none, twoSeconds, twoSeconds.length⟩, [twoSeconds]⟩ := by
  rw [transcribe_chunk_fire helloBackend readySession twoSeconds rfl
    (by simp [twoSeconds_length, readySession, MIN_SAMPLES_FOR_TRANSCRIPTION])
    (by simp [twoSeconds_length, readySession, TRANSCRIBE_INTERVAL_SAMPLES])]
  simp [readySession, helloBackend, extractResult]

theorem hello_second_call :
    transcribe_chunk helloBackend ⟨true, none, twoSeconds, twoSeconds.length⟩ oneSecond =
      ⟨"hello", ⟨true, none, twoSeconds ++ oneSecond, (twoSeconds ++ oneSecond).length⟩,
       [twoSeconds ++ oneSecond]⟩ := by
  rw [transcribe_chunk_fire helloBackend
    ⟨true, none, twoSeconds, twoSeconds.length⟩ oneSecond rfl
    (by simp [twoSeconds_length, oneSecond_length, MIN_SAMPLES_FOR_TRANSCRIPTION])
    (by simp [twoSeconds_length, oneSecond_length, TRANSCRIBE_INTERVAL_SAMPLES])]
  simp [helloBackend, extractResult]

theorem pyStrip_hello : pyStrip "hello" = "hello" := by decide

theorem on_audio_hello_first :
    on_audio_chunk helloBackend recState twoSeconds =
      ⟨⟨⟨true, none, twoSeconds, twoSeconds.length⟩, true, "hello"⟩,
       ["hello"], [twoSeconds]⟩ := by
  simp only [on_audio_chunk, recState]
  rw [if_neg (by decide), if_neg (by decide)]
  rw [hello_first_call]
  rw [if_pos ⟨by decide, by decide, by decide⟩]
  rw [pyStrip_hello]

theorem on_audio_hello_second :
    on_audio_chunk helloBackend
        ⟨⟨true, none, twoSeconds, twoSeconds.length⟩, true, "hello"⟩ oneSecond =
      ⟨⟨⟨true, none, twoSeconds ++ oneSecond, (twoSeconds ++ oneSecond).length⟩,
        true, "hello"⟩, [], [twoSeconds ++ oneSecond]⟩ := by
  simp only [on_audio_chunk]
  rw [if_neg (by decide), if_neg (by decide)]
  rw [hello_second_call]
  rw [if_neg (by decide)]

/-- C2 counterexample: with a backend that returns the same string "hello"
on every invocation, two consecutive backend-invoking `transcribe_chunk`
calls from a fresh ready session both return "hello" — the second call does
not return nothing, refuting the claim that of two consecutive
backend-invoking calls obtaining the same string only the first returns it. -/
theorem transcribe_chunk_no_dedup_counterexample :
    (transcribe_chunk helloBackend readySession twoSeconds).text = "hello" ∧
    (transcribe_chunk helloBackend readySession twoSeconds).backendCalls.length = 1 ∧
    (transcribe_chunk helloBackend
        (transcribe_chunk helloBackend readySession twoSeconds).state
        oneSecond).text = "hello" ∧
    (transcribe_chunk helloBackend
        (transcribe_chunk helloBackend readySession twoSeconds).state
        oneSecond).backendCalls.length = 1 ∧
    ("hello" : String) ≠ "" := by
  rw [hello_first_call]
  dsimp only
  rw [hello_second_call]
  exact ⟨rfl, rfl, rfl, rfl, by decide⟩

/-- C2 (amended): when `transcribe_chunk` performs a backend invocation it
runs the backend over the entire accumulated buffer, sets the
last-transcribed marker to the accumulated length, and returns the backend
text unconditionally — also when it equals the previously emitted partial.
The deduplication happens one level up, in the orchestrator callback
`on_audio_chunk`, which broadcasts a partial only when the returned text is
non-empty, non-blank and differs from `current_partial_text`; in particular,
when two consecutive backend-invoking calls obtain the same string, only the
first orchestrator step broadcasts it and the second broadcasts nothing. -/
theorem transcribe_chunk_dedup_at_orchestrator :
    (∀ (backend : Backend) (s : TranscriberState) (chunk : List Sample),
      s.modelLoaded = true →
      ¬ (s.streamingBuffer ++ chunk).length < MIN_SAMPLES_FOR_TRANSCRIPTION →
      ¬ ((s.streamingBuffer ++ chunk).length : Int) - (s.lastTranscribedLength : Int) <
          (TRANSCRIBE_INTERVAL_SAMPLES : Int) →
      transcribe_chunk backend s chunk =
        ⟨extractResult (backend (s.streamingBuffer ++ chunk)),
         { s with streamingBuffer := s.streamingBuffer ++ chunk,
                  lastTranscribedLength := (s.streamingBuffer ++ chunk).length },
         [s.streamingBuffer ++ chunk]⟩) ∧
    (∀ (backend : Backend) (st : ApiState) (chunk : List Sample),
      (transcribe_chunk backend st.transcriber chunk).text = st.currentPartialText →
      (on_audio_chunk backend st chunk).partialBroadcasts = []) ∧
    ((on_audio_chunk helloBackend recState twoSeconds).partialBroadcasts = ["hello"] ∧
     (on_audio_chunk helloBackend
        (on_audio_chunk helloBackend recState twoSeconds).state
        oneSecond).partialBroadcasts = []) := by
  refine ⟨?_, ?_, ?_, ?_⟩
  · intro backend s chunk h hlen hint
    exact transcribe_chunk_fire backend s chunk h hlen hint
  · intro backend st chunk heq
    simp only [on_audio_chunk]
    split_ifs with h1 h2 h3
    · rfl
    · rfl
    · exact absurd heq h3.2.2
    · rfl
  · rw [on_audio_hello_first]
  · rw [on_audio_hello_first]
    dsimp only
    rw [on_audio_hello_second]

/-- Witness for C2 (amended): the second consecutive "hello" step, where the
backend text equals the stored partial, broadcasts nothing. -/
theorem transcribe_chunk_dedup_at_orchestrator_witness :
    (transcribe_chunk helloBackend
      (⟨⟨true, none, twoSeconds, twoSeconds.length⟩, true, "hello"⟩ : ApiState).transcriber
      oneSecond).text =
      (⟨⟨true, none, twoSeconds, twoSeconds.length⟩, true, "hello"⟩ : ApiState).currentPartialText ∧
    (on_audio_chunk helloBackend
      ⟨⟨true, none, twoSeconds, twoSeconds.length⟩, true, "hello"⟩
      oneSecond).partialBroadcasts = [] := by
  have h : (transcribe_chunk helloBackend
      (⟨⟨true, none, twoSeconds, twoSeconds.length⟩, true, "hello"⟩ : ApiState).transcriber
      oneSecond).text =
      (⟨⟨true, none, twoSeconds, twoSeconds.length⟩, true, "hello"⟩ : ApiState).currentPartialText := by
    rw [hello_second_call]
  exact ⟨h, transcribe_chunk_dedup_at_orchestrator.2.1 helloBackend
    ⟨⟨true, none, twoSeconds, twoSeconds.length⟩, true, "hello"⟩ oneSecond h⟩

/-!
Run lemmas for the hotkey machine: how `run_events` behaves on a press
phase and on a release phase.
-/

theorem pressAll_cons (k : PKey) (ks : List PKey) :
    pressAll (k :: ks) = KeyEvent.press k :: pressAll ks := rfl

theorem releaseAll_cons (k : PKey) (ks : List PKey) :
    releaseAll (k :: ks) = KeyEvent.release k :: releaseAll ks := rfl

theorem pressedAfterPresses_cons (p : Finset PKey) (k : PKey) (ks : List PKey) :
    pressedAfterPresses p (k :: ks) =
      pressedAfterPresses (insert (normalize_key k) p) ks := rfl

theorem pressedAfterReleases_cons (p : Finset PKey) (k : PKey) (ks : List PKey) :
    pressedAfterReleases p (k :: ks) =
      pressedAfterReleases (p.erase (normalize_key k)) ks := rfl

theorem pressedAfterPresses_eq (ks : List PKey) :
    ∀ p : Finset PKey,
      pressedAfterPresses p ks = p ∪ (ks.map normalize_key).toFinset := by
  induction ks with
  | nil => intro p; simp [pressedAfterPresses]
  | cons k ks ih =>
    intro p
    rw [pressedAfterPresses_cons, ih]
    ext x
    simp [or_comm, or_left_comm]

theorem pressedAfterReleases_eq (ks : List PKey) :
    ∀ p : Finset PKey,
      pressedAfterReleases p ks = p \ (ks.map normalize_key).toFinset := by
  induction ks with
  | nil => intro p; simp [pressedAfterReleases]
  | cons k ks ih =>
    intro p
    rw [pressedAfterReleases_cons, ih]
    ext x
    simp [Finset.mem_erase]
    tauto

theorem run_events_append (evs1 : List KeyEvent) :
    ∀ (s : HotkeyState) (evs2 : List KeyEvent),
      run_events s (evs1 ++ evs2) =
        ((run_events (run_events s evs1).1 evs2).1,
         (run_events s evs1).2 ++ (run_events (run_events s evs1).1 evs2).2) := by
  induction evs1 with
  | nil => intro s evs2; simp [run_events]
  | cons e es ih =>
    intro s evs2
    simp [run_events, ih, List.append_assoc]

/-- Pressing any keys while the combination is already active fires no
callbacks and only grows the pressed set. -/
theorem run_pressAll_absorb (ks : List PKey) :
    ∀ s : HotkeyState, s.enabled = true → s.hotkeyActive = true →
      run_events s (pressAll ks) =
        ({ s with pressedKeys := pressedAfterPresses s.pressedKeys ks }, []) := by
  induction ks with
  | nil =>
    intro s he ha
    simp [pressAll, run_events, pressedAfterPresses]
  | cons k ks ih =>
    intro s he ha
    rw [pressAll_cons]
    simp only [run_events, handle_event]
    have h1 : on_key_press s k =
        ({ s with pressedKeys := insert (normalize_key k) s.pressedKeys }, []) := by
      simp only [on_key_press]
      rw [if_neg (by simp [he]), if_neg (by simp [ha])]
    rw [h1]
    dsimp only
    rw [ih { s with pressedKeys := insert (normalize_key k) s.pressedKeys } he ha]
    simp [pressedAfterPresses_cons]

/-- Pressing a list of keys that completes the combination from an inactive
state fires exactly one dispatch (at the completing edge) and ends with the
combination active. -/
theorem run_pressAll_complete (ks : List PKey) :
    ∀ s : HotkeyState, s.enabled = true → s.hotkeyActive = false →
      s.hotkeyKeys.Nonempty → ¬ s.hotkeyKeys ⊆ s.pressedKeys →
      s.hotkeyKeys ⊆ pressedAfterPresses s.pressedKeys ks →
      run_events s (pressAll ks) =
        ({ s with pressedKeys := pressedAfterPresses s.pressedKeys ks,
                  hotkeyActive := true,
                  toggleRecording := toggleAfterDispatch s }, [dispatchedEvent s]) := by
  induction ks with
  | nil =>
    intro s he ha hne hnsub hsub
    exact absurd hsub hnsub
  | cons k ks ih =>
    intro s he ha hne hnsub hsub
    rw [pressAll_cons]
    simp only [run_events, handle_event]
    by_cases hc : s.hotkeyKeys ⊆ insert (normalize_key k) s.pressedKeys
    · have h1 : on_key_press s k =
          ({ s with pressedKeys := insert (normalize_key k) s.pressedKeys,
                    hotkeyActive := true,
                    toggleRecording := toggleAfterDispatch s }, [dispatchedEvent s]) := by
        simp only [on_key_press]
        rw [if_neg (by simp [he]), if_pos ⟨ha, hne, hc⟩]
        by_cases hm : s.mode = MODE_TOGGLE
        · cases htr : s.toggleRecording with
          | false => simp [hm, htr, dispatchedEvent, toggleAfterDispatch]
          | true => simp [hm, htr, dispatchedEvent, toggleAfterDispatch]
        · simp [hm, dispatchedEvent, toggleAfterDispatch]
      rw [h1]
      dsimp only
      rw [run_pressAll_absorb ks
        { s with pressedKeys := insert (normalize_key k) s.pressedKeys,
                 hotkeyActive := true,
                 toggleRecording := toggleAfterDispatch s } he rfl]
      simp [pressedAfterPresses_cons]
    · have h1 : on_key_press s k =
          ({ s with pressedKeys := insert (normalize_key k) s.pressedKeys }, []) := by
        simp only [on_key_press]
        rw [if_neg (by simp [he]), if_neg (by simp [hc])]
      rw [h1]
      dsimp only
      rw [ih { s with pressedKeys := insert (normalize_key k) s.pressedKeys }
        he ha hne hc hsub]
      simp [pressedAfterPresses_cons, dispatchedEvent, toggleAfterDispatch]

/-- In toggle mode, a release phase fires no callbacks; it shrinks the
pressed set and clears the active flag as soon as a combination key is
released. -/
theorem run_releaseAll_toggle (ks : List PKey) :
    ∀ s : HotkeyState, s.enabled = true → s.mode = MODE_TOGGLE →
      run_events s (releaseAll ks) =
        ({ s with pressedKeys := pressedAfterReleases s.pressedKeys ks,
                  hotkeyActive := s.hotkeyActive &&
                    ks.all (fun k => !(decide (normalize_key k ∈ s.hotkeyKeys))) }, []) := by
  induction ks with
  | nil =>
    intro s he hm
    simp [releaseAll, run_events, pressedAfterReleases]
  | cons k ks ih =>
    intro s he hm
    rw [releaseAll_cons]
    simp only [run_events, handle_event]
    by_cases hcond : s.hotkeyActive = true ∧ normalize_key k ∈ s.hotkeyKeys
    · have h1 : on_key_release s k =
          ({ s with pressedKeys := s.pressedKeys.erase (normalize_key k),
                    hotkeyActive := false }, []) := by
        simp only [on_key_release]
        rw [if_neg (by simp [he]), if_pos hcond,
          if_neg (by rw [hm]; decide)]
      rw [h1]
      dsimp only
      rw [ih { s with pressedKeys := s.pressedKeys.erase (normalize_key k),
                      hotkeyActive := false } he hm]
      have hval : (s.hotkeyActive &&
          (k :: ks).all (fun k => !(decide (normalize_key k ∈ s.hotkeyKeys)))) = false := by
        rw [List.all_cons, decide_eq_true hcond.2, Bool.not_true, Bool.false_and,
          Bool.and_false]
      rw [pressedAfterReleases_cons, hval]
      simp
    · have h1 : on_key_release s k =
          ({ s with pressedKeys := s.pressedKeys.erase (normalize_key k) }, []) := by
        simp only [on_key_release]
        rw [if_neg (by simp [he]), if_neg hcond]
      rw [h1]
      dsimp only
      rw [ih { s with pressedKeys := s.pressedKeys.erase (normalize_key k) } he hm]
      have hval : (s.hotkeyActive &&
          (k :: ks).all (fun k => !(decide (normalize_key k ∈ s.hotkeyKeys)))) =
          (s.hotkeyActive && ks.all (fun k => !(decide (normalize_key k ∈ s.hotkeyKeys)))) := by
        cases ha : s.hotkeyActive with
        | false => rw [Bool.false_and, Bool.false_and]
        | true =>
          have hnot : normalize_key k ∉ s.hotkeyKeys := fun hmem => hcond ⟨ha, hmem⟩
          rw [List.all_cons, decide_eq_false hnot, Bool.not_false, Bool.true_and]
      rw [pressedAfterReleases_cons, hval]
      simp

theorem parse_space : parse_key "space" = some PKey.space := by decide

/-- C6 counterexample: from a toggle-mode machine currently recording
(`_toggle_recording = true`), reconfiguring the combination via `set_hotkey`
with the valid key "space" succeeds, yet `_toggle_recording` is still true
afterwards — `set_hotkey` does not reset it, refuting the claim that both
flags are reset. -/
theorem set_hotkey_keeps_toggleRecording_counterexample :
    (set_hotkey toggledMachine ["space"]).success = true ∧
    toggledMachine.toggleRecording = true ∧
    (set_hotkey toggledMachine ["space"]).state.toggleRecording = true := by
  simp only [set_hotkey, List.filterMap_cons, parse_space, List.filterMap_nil,
    List.map_cons, List.map_nil, List.toFinset_cons, List.toFinset_nil]
  rw [if_neg (by decide)]
  exact ⟨rfl, rfl, rfl⟩

/-- C6 (amended): `set_mode` resets both `comboActive` (`_hotkey_active`)
and `toggleRecording` (`_toggle_recording`) to false and fires no callbacks.
`set_hotkey` with at least one valid key replaces the combination, resets
`comboActive` only, leaves `toggleRecording` unchanged, and fires no
callbacks; with no valid key it returns false and leaves the state
unchanged. -/
theorem reconfigure_resets_flags :
    (∀ (s : HotkeyState) (mode : String),
      set_mode s mode =
        ({ s with mode := mode, toggleRecording := false, hotkeyActive := false }, [])) ∧
    (∀ (s : HotkeyState) (hotkey : List String),
      (set_hotkey s hotkey).events = [] ∧
      (((hotkey.filterMap parse_key).map normalize_key).toFinset ≠ ∅ →
        (set_hotkey s hotkey).success = true ∧
        (set_hotkey s hotkey).state =
          { s with
              hotkeyKeys := ((hotkey.filterMap parse_key).map normalize_key).toFinset,
              hotkeyActive := false } ∧
        (set_hotkey s hotkey).state.toggleRecording = s.toggleRecording) ∧
      (((hotkey.filterMap parse_key).map normalize_key).toFinset = ∅ →
        set_hotkey s hotkey = ⟨false, s, []⟩)) := by
  refine ⟨fun s mode => rfl, fun s hotkey => ⟨?_, ?_, ?_⟩⟩
  · simp only [set_hotkey]
    split_ifs <;> rfl
  · intro h
    simp only [set_hotkey]
    rw [if_neg h]
    exact ⟨rfl, rfl, rfl⟩
  · intro h
    simp only [set_hotkey]
    rw [if_pos h]

/-- Witness for C6 (amended): `set_hotkey` with "space" on a recording
toggle machine succeeds, clears `comboActive`, and keeps `toggleRecording`. -/
theorem reconfigure_resets_flags_witness :
    ((((["space"] : List String).filterMap parse_key).map normalize_key).toFinset :
      Finset PKey) ≠ ∅ ∧
    (set_hotkey toggledMachine ["space"]).success = true ∧
    (set_hotkey toggledMachine ["space"]).state =
      { toggledMachine with
          hotkeyKeys := ((["space"].filterMap parse_key).map normalize_key).toFinset,
          hotkeyActive := false } ∧
    (set_hotkey toggledMachine ["space"]).state.toggleRecording =
      toggledMachine.toggleRecording := by
  have h : ((((["space"] : List String).filterMap parse_key).map
      normalize_key).toFinset : Finset PKey) ≠ ∅ := by decide
  exact ⟨h, (reconfigure_resets_flags.2 toggledMachine ["space"]).2.1 h⟩

/-- C7: in toggle mode, pressing all combination keys, releasing them,
pressing them all again and releasing again (from the fresh enabled machine)
fires exactly one activate (at the first completed press) followed by
exactly one deactivate (at the second completed press); and a key release
never fires any callback in toggle mode. -/
theorem toggle_mode_press_release_cycle :
    (∀ (s : HotkeyState) (k : PKey), s.mode = MODE_TOGGLE →
      (on_key_release s k).2 = []) ∧
    ∀ ck : List PKey, ck ≠ [] →
      (run_events (freshMachine MODE_TOGGLE ck)
        (pressAll ck ++ (releaseAll ck ++ (pressAll ck ++ releaseAll ck)))).2 =
      [HEvent.activate, HEvent.deactivate] := by
  constructor
  · intro s k hm
    simp only [on_key_release]
    split_ifs with h1 h2 h3
    · rfl
    · rw [hm] at h3
      exact absurd h3 (by decide)
    · rfl
    · rfl
  · intro ck hck
    obtain ⟨khd, ktl, rfl⟩ := List.exists_cons_of_ne_nil hck
    have hCmem : normalize_key khd ∈ ((khd :: ktl).map normalize_key).toFinset :=
      List.mem_toFinset.mpr (List.mem_map_of_mem _ (List.mem_cons_self _ _))
    have hCne : (((khd :: ktl).map normalize_key).toFinset : Finset PKey).Nonempty :=
      ⟨_, hCmem⟩
    have hnsub : ¬ ((khd :: ktl).map normalize_key).toFinset ⊆ (∅ : Finset PKey) :=
      fun h => hCne.ne_empty (Finset.subset_empty.mp h)
    have hsub : ((khd :: ktl).map normalize_key).toFinset ⊆
        pressedAfterPresses ∅ (khd :: ktl) := by
      rw [pressedAfterPresses_eq, Finset.empty_union]
    have h1 : run_events (freshMachine MODE_TOGGLE (khd :: ktl)) (pressAll (khd :: ktl)) =
        (⟨MODE_TOGGLE, ((khd :: ktl).map normalize_key).toFinset,
          pressedAfterPresses ∅ (khd :: ktl), true, true, true⟩,
         [HEvent.activate]) := by
      rw [run_pressAll_complete (khd :: ktl) (freshMachine MODE_TOGGLE (khd :: ktl))
        rfl rfl hCne hnsub hsub]
      simp [freshMachine, dispatchedEvent, toggleAfterDispatch]
    have hP : pressedAfterReleases (pressedAfterPresses ∅ (khd :: ktl)) (khd :: ktl) =
        (∅ : Finset PKey) := by
      rw [pressedAfterReleases_eq, pressedAfterPresses_eq, Finset.empty_union,
        Finset.sdiff_self]
    have hA : ((true : Bool) &&
        (khd :: ktl).all (fun k =>
          !(decide (normalize_key k ∈ ((khd :: ktl).map normalize_key).toFinset)))) =
        false := by
      rw [Bool.true_and, List.all_cons, decide_eq_true hCmem, Bool.not_true,
        Bool.false_and]
    have h2 : run_events
        (⟨MODE_TOGGLE, ((khd :: ktl).map normalize_key).toFinset,
          pressedAfterPresses ∅ (khd :: ktl), true, true, true⟩ : HotkeyState)
        (releaseAll (khd :: ktl)) =
        (⟨MODE_TOGGLE, ((khd :: ktl).map normalize_key).toFinset, ∅, false, true, true⟩,
         []) := by
      rw [run_releaseAll_toggle (khd :: ktl) _ rfl rfl]
      dsimp only
      rw [hP, hA]
    have h3 : run_events
        (⟨MODE_TOGGLE, ((khd :: ktl).map normalize_key).toFinset, ∅, false, true, true⟩ :
          HotkeyState)
        (pressAll (khd :: ktl)) =
        (⟨MODE_TOGGLE, ((khd :: ktl).map normalize_key).toFinset,
          pressedAfterPresses ∅ (khd :: ktl), true, false, true⟩,
         [HEvent.deactivate]) := by
      rw [run_pressAll_complete (khd :: ktl) _ rfl rfl hCne hnsub hsub]
      simp [dispatchedEvent, toggleAfterDispatch]
    have h4 : (run_events
        (⟨MODE_TOGGLE, ((khd :: ktl).map normalize_key).toFinset,
          pressedAfterPresses ∅ (khd :: ktl), true, false, true⟩ : HotkeyState)
        (releaseAll (khd :: ktl))).2 = [] := by
      rw [run_releaseAll_toggle (khd :: ktl) _ rfl rfl]
    rw [run_events_append, h1]
    dsimp only
    rw [run_events_append, h2]
    dsimp only
    rw [run_events_append, h3]
    dsimp only
    rw [h4]
    rfl

/-- Witness for C7: the cycle run with the one-key combination [space]. -/
theorem toggle_mode_press_release_cycle_witness :
    ([PKey.space] : List PKey) ≠ [] ∧
    (run_events (freshMachine MODE_TOGGLE [PKey.space])
      (pressAll [PKey.space] ++ (releaseAll [PKey.space] ++
        (pressAll [PKey.space] ++ releaseAll [PKey.space])))).2 =
      [HEvent.activate, HEvent.deactivate] := by
  have hne : ([PKey.space] : List PKey) ≠ [] := by simp
  exact ⟨hne, toggle_mode_press_release_cycle.2 [PKey.space] hne⟩

/-- C8 counterexample: in push-to-talk mode with combination
{ctrl_l, shift_l, space}, pressing all three keys (one activate), releasing
space (one deactivate), and then re-pressing space while ctrl_l and shift_l
are still held fires onActivate a second time — re-pressing without fully
releasing all keys first does re-fire activate, refuting the claim. -/
theorem ptt_repress_refires_counterexample :
    (run_events pttMachine
      [.press .ctrl_l, .press .shift_l, .press .space, .release .space,
       .press .space]).2 = [HEvent.activate, HEvent.deactivate, HEvent.activate] := by
  decide

/-- C8 (amended): in push-to-talk mode, pressing all combination keys then
releasing any one combination key yields exactly one onActivate followed by
exactly one onDeactivate, and press events arriving while the combination is
active (`comboActive` true) do not re-fire activate; the concrete
{ctrl_l, shift_l, space} scenario holds as stated.  However, once one
combination key has been released (clearing `comboActive` and firing
deactivate), re-pressing it while the remaining keys are still held
completes the combination again and does re-fire onActivate. -/
theorem ptt_press_release_semantics :
    (∀ (s : HotkeyState) (k : PKey), s.hotkeyActive = true →
      (on_key_press s k).2 = []) ∧
    (∀ (ck : List PKey), ck ≠ [] → ∀ k : PKey,
      normalize_key k ∈ (ck.map normalize_key).toFinset →
      (run_events (freshMachine MODE_PUSH_TO_TALK ck) (pressAll ck)).2 =
        [HEvent.activate] ∧
      (on_key_release
        (run_events (freshMachine MODE_PUSH_TO_TALK ck) (pressAll ck)).1 k).2 =
        [HEvent.deactivate]) ∧
    ((run_events pttMachine
        [.press .ctrl_l, .press .shift_l, .press .space]).2 = [HEvent.activate] ∧
     (run_events pttMachine
        [.press .ctrl_l, .press .shift_l, .press .space, .release .space]).2 =
        [HEvent.activate, HEvent.deactivate] ∧
     (run_events pttMachine
        [.press .ctrl_l, .press .shift_l, .press .space, .release .space,
         .release .ctrl_l, .release .shift_l]).2 =
        [HEvent.activate, HEvent.deactivate]) := by
  refine ⟨?_, ?_, by decide, by decide, by decide⟩
  · intro s k ha
    simp only [on_key_press]
    split_ifs <;> simp_all
  · intro ck hck k hk
    obtain ⟨khd, ktl, rfl⟩ := List.exists_cons_of_ne_nil hck
    have hCmem : normalize_key khd ∈ ((khd :: ktl).map normalize_key).toFinset :=
      List.mem_toFinset.mpr (List.mem_map_of_mem _ (List.mem_cons_self _ _))
    have hCne : (((khd :: ktl).map normalize_key).toFinset : Finset PKey).Nonempty :=
      ⟨_, hCmem⟩
    have hnsub : ¬ ((khd :: ktl).map normalize_key).toFinset ⊆ (∅ : Finset PKey) :=
      fun h => hCne.ne_empty (Finset.subset_empty.mp h)
    have hsub : ((khd :: ktl).map normalize_key).toFinset ⊆
        pressedAfterPresses ∅ (khd :: ktl) := by
      rw [pressedAfterPresses_eq, Finset.empty_union]
    have h1 : run_events (freshMachine MODE_PUSH_TO_TALK (khd :: ktl))
        (pressAll (khd :: ktl)) =
        (⟨MODE_PUSH_TO_TALK, ((khd :: ktl).map normalize_key).toFinset,
          pressedAfterPresses ∅ (khd :: ktl), true, false, true⟩,
         [HEvent.activate]) := by
      rw [run_pressAll_complete (khd :: ktl) (freshMachine MODE_PUSH_TO_TALK (khd :: ktl))
        rfl rfl hCne hnsub hsub]
      simp [freshMachine, dispatchedEvent, toggleAfterDispatch, MODE_PUSH_TO_TALK,
        MODE_TOGGLE]
    rw [h1]
    dsimp only
    constructor
    · rfl
    · simp only [on_key_release]
      rw [if_neg (by decide), if_pos ⟨trivial, hk⟩, if_pos trivial]

/-- Witness for C8 (amended): the one-key combination [space], pressed and
then released. -/
theorem ptt_press_release_semantics_witness :
    ([PKey.space] : List PKey) ≠ [] ∧
    normalize_key PKey.space ∈
      ((([PKey.space] : List PKey).map normalize_key).toFinset : Finset PKey) ∧
    ((run_events (freshMachine MODE_PUSH_TO_TALK [PKey.space])
        (pressAll [PKey.space])).2 = [HEvent.activate] ∧
     (on_key_release (run_events (freshMachine MODE_PUSH_TO_TALK [PKey.space])
        (pressAll [PKey.space])).1 PKey.space).2 = [HEvent.deactivate]) := by
  have h1 : ([PKey.space] : List PKey) ≠ [] := by simp
  have h2 : normalize_key PKey.space ∈
      ((([PKey.space] : List PKey).map normalize_key).toFinset : Finset PKey) := by
    decide
  exact ⟨h1, h2, ptt_press_release_semantics.2.1 [PKey.space] h1 PKey.space h2⟩

/-- C9 counterexample: the HTTP stop path with a recording session and an
empty capture broadcasts the status sequence ["transcribing", "ready"] — a
Transcribing status is broadcast before the empty-audio check, so the status
is not set directly to Ready on this cited path (even though no backend
call, history entry or output happens). -/
theorem empty_audio_status_counterexample :
    stop_recording (fun _ => []) id recState none =
      Except.ok (⟨readySession, false, ""⟩,
        ⟨["transcribing", "ready"], [], [], [], [], []⟩,
        ⟨"", "", false⟩) ∧
    (["transcribing", "ready"] : List String) ≠ ["ready"] :=
  ⟨rfl, by decide⟩

/-- C9 (amended): on deactivate, when stopping the audio source yields no
captured samples (`none` or an empty array), no finalize backend call is
made and the finalize pipeline (replacements, history, paste/type output) is
skipped, with the status ending at Ready.  The Python hotkey-release path
broadcasts exactly ["ready"]; the HTTP stop endpoint and the main-app path
set a Transcribing status before discovering the capture is empty, and so
reach Ready through Transcribing rather than directly. -/
theorem empty_audio_short_circuit :
    ∀ (backend : Backend) (apply_replacements : String → String) (st : ApiState)
      (mst : MainState) (stopResult : Option (List Sample)),
      st.isRecording = true →
      (stopResult = none ∨ stopResult = some []) →
      mst.settingsOpen = false → mst.transcriberReady = true →
      mst.audioRecording = true →
      ((on_hotkey_release backend apply_replacements st stopResult).2.statusBroadcasts =
         ["ready"] ∧
       (on_hotkey_release backend apply_replacements st stopResult).2.finalizeCalls = [] ∧
       (on_hotkey_release backend apply_replacements st stopResult).2.historyEntries = [] ∧
       (on_hotkey_release backend apply_replacements st stopResult).2.pasted = []) ∧
      ((stop_recording backend apply_replacements st stopResult).map
         (fun p => (p.2.1.statusBroadcasts, p.2.1.finalizeCalls, p.2.1.historyEntries,
                    p.2.1.pasted, p.2.2.success)) =
         Except.ok (["transcribing", "ready"], [], [], [], false)) ∧
      (main_on_hotkey_release backend mst stopResult =
         ⟨[.transcribing, .ready], [], []⟩) := by
  intro backend apply_replacements st mst stopResult hrec hempty hso htr har
  rcases hempty with rfl | rfl
  · refine ⟨?_, ?_, ?_⟩
    · simp only [on_hotkey_release]
      rw [if_neg (by simp [hrec])]
      exact ⟨rfl, rfl, rfl, rfl⟩
    · simp only [stop_recording]
      rw [if_neg (by simp [hrec])]
      rfl
    · simp only [main_on_hotkey_release]
      rw [if_neg (by simp [hso]), if_neg (by simp [htr]), if_neg (by simp [har])]
  · refine ⟨?_, ?_, ?_⟩
    · simp only [on_hotkey_release]
      rw [if_neg (by simp [hrec])]
      exact ⟨rfl, rfl, rfl, rfl⟩
    · simp only [stop_recording]
      rw [if_neg (by simp [hrec])]
      rfl
    · simp only [main_on_hotkey_release]
      rw [if_neg (by simp [hso]), if_neg (by simp [htr]), if_neg (by simp [har])]
      rfl

/-- Witness for C9 (amended): a live recording session whose stop yields no
captured audio. -/
theorem empty_audio_short_circuit_witness :
    (recState.isRecording = true ∧
     ((none : Option (List Sample)) = none ∨ (none : Option (List Sample)) = some []) ∧
     (⟨false, true, true⟩ : MainState).settingsOpen = false ∧
     (⟨false, true, true⟩ : MainState).transcriberReady = true ∧
     (⟨false, true, true⟩ : MainState).audioRecording = true) ∧
    ((on_hotkey_release (fun _ => []) id recState none).2.statusBroadcasts = ["ready"] ∧
     (on_hotkey_release (fun _ => []) id recState none).2.finalizeCalls = [] ∧
     (on_hotkey_release (fun _ => []) id recState none).2.historyEntries = [] ∧
     (on_hotkey_release (fun _ => []) id recState none).2.pasted = []) ∧
    ((stop_recording (fun _ => []) id recState none).map
       (fun p => (p.2.1.statusBroadcasts, p.2.1.finalizeCalls, p.2.1.historyEntries,
                  p.2.1.pasted, p.2.2.success)) =
       Except.ok (["transcribing", "ready"], [], [], [], false)) ∧
    (main_on_hotkey_release (fun _ => []) ⟨false, true, true⟩ none =
       ⟨[.transcribing, .ready], [], []⟩) :=
  ⟨⟨rfl, Or.inl rfl, rfl, rfl, rfl⟩,
   empty_audio_short_circuit (fun _ => []) id recState ⟨false, true, true⟩ none
     rfl (Or.inl rfl) rfl rfl rfl⟩

end FreeFlow
